import Mathlib

/-!
Verification development for the fallible-tensor wrapper (mtensor.rs) of the
candle fork.  The wrapper type MTensor holds a Result of an opaque Tensor and
provides error-propagating arithmetic operators, a try-style branch/residual
pair, and a fatal unwrap.  The Tensor and Error collaborators are external to
the source file and are modelled from the specification where needed.
-/

namespace Candle

/-- Model of the external candle Error type.  The source file pattern-matches
on the WithBacktrace variant (inner error plus backtrace); every other
variant is collapsed into a single message-carrying constructor with a
numeric code standing in for the opaque payload. -/
inductive Error where
  | withBacktrace (inner : Error) (backtrace : Nat)
  | msg (code : Nat)
deriving DecidableEq

/-- Modelled from the spec: the external Error trace operation used on line 17
of mtensor.rs.  Per sections 6 and 7 of the spec it is trace-preserving: the
error and its diagnostic trace are carried forward unchanged, never swallowed
or reclassified, so it is modelled as the identity on errors. -/
def Error.bt (e : Error) : Error := e

/-- Modelled from the spec: the opaque external Tensor, an immutable
multidimensional numeric array, modelled as a list of integers (exact arithmetic over the numeric element type). -/
structure Tensor where
  data : List Int
deriving DecidableEq

/-- The four binary operators the source file implements (Add, Sub, Mul, Div). -/
inductive BinOp where
  | add
  | sub
  | mul
  | div
deriving DecidableEq

/-- Scalar meaning of each operator. -/
def BinOp.apply : BinOp → Int → Int → Int
  | .add, x, y => x + y
  | .sub, x, y => x - y
  | .mul, x, y => x * y
  | .div, x, y => x / y

/-- Modelled from the spec: the external tensor-tensor operators of the
underlying library, elementwise over equal shapes, producing the library
error (already carrying a trace) on shape mismatch. -/
def Tensor.binOp (op : BinOp) (a b : Tensor) : Except Error Tensor :=
  if a.data.length = b.data.length then
    .ok ⟨List.zipWith op.apply a.data b.data⟩
  else
    .error (Error.withBacktrace (Error.msg 0) 0)

/-- Modelled from the spec: the external tensor-scalar operators of the
underlying library, elementwise with the scalar on the right. -/
def Tensor.scalarR (op : BinOp) (a : Tensor) (s : Int) : Except Error Tensor :=
  .ok ⟨a.data.map (fun x => op.apply x s)⟩

/-- Modelled from the spec: the external scalar-tensor operators of the
underlying library, elementwise with the scalar on the left. -/
def Tensor.scalarL (op : BinOp) (s : Int) (b : Tensor) : Except Error Tensor :=
  .ok ⟨b.data.map (fun x => op.apply s x)⟩

instance instDecEqResultTensor : DecidableEq (Except Error Tensor) := fun a b =>
  match a, b with
  | .ok x, .ok y => decidable_of_iff (x = y) (by simp)
  | .ok _, .error _ => isFalse (fun h => Except.noConfusion h)
  | .error _, .ok _ => isFalse (fun h => Except.noConfusion h)
  | .error x, .error y => decidable_of_iff (x = y) (by simp)

/-- The wrapper struct of mtensor.rs: a public inner Result of Tensor. -/
structure MTensor where
  inner : Except Error Tensor
deriving DecidableEq

/-- From Result of Tensor for MTensor (lines 45-49): wraps the result as is. -/
def MTensor.ofResult (r : Except Error Tensor) : MTensor := ⟨r⟩

/-- From Tensor for MTensor (lines 51-55): always the success state. -/
def MTensor.ofTensor (t : Tensor) : MTensor := ⟨.ok t⟩

/-- Outcome of running an operator body: either a normal return of an MTensor,
or a panic (the unreachable arm of the ttry expansion), identified by a
message code. -/
inductive OpOut where
  | ret (m : MTensor)
  | panicked (code : Nat)
deriving DecidableEq

/-- Code standing for the panic message of the unreachable arm,
which reads: We made sure to do a backtrace. -/
def unreachableCode : Nat := 1

/-- The ttry expansion (lines 5-21) in continuation style: on a success inner
value the continuation receives the tensor; on a WithBacktrace error the
enclosing operator returns a failure MTensor wrapping a clone of the error
passed through bt; on any other error variant the unreachable arm panics. -/
def ttry (v : MTensor) (k : Tensor → OpOut) : OpOut :=
  match v.inner with
  | .ok x => k x
  | .error (Error.withBacktrace inner backtrace) =>
      .ret (MTensor.ofResult (.error (Error.bt (Error.withBacktrace inner backtrace))))
  | .error (Error.msg _) => .panicked unreachableCode

/-- Operator closure shape for the MTensor-MTensor pairing (lines 130-141),
generic in the underlying external tensor operator tn. -/
def mtMt (tn : Tensor → Tensor → Except Error Tensor) (a b : MTensor) : OpOut :=
  ttry a fun x => ttry b fun y => .ret (MTensor.ofResult (tn x y))

/-- Operator closure shape for the MTensor-f64 pairing (lines 145-156). -/
def mtScalar (tn : Tensor → Int → Except Error Tensor) (a : MTensor) (s : Int) : OpOut :=
  ttry a fun x => .ret (MTensor.ofResult (tn x s))

/-- Operator closure shape for the f64-MTensor pairing (lines 160-171). -/
def scalarMt (tn : Int → Tensor → Except Error Tensor) (s : Int) (b : MTensor) : OpOut :=
  ttry b fun y => .ret (MTensor.ofResult (tn s y))

/-- Operator closure shape for the Tensor-MTensor pairing (lines 175-186). -/
def tensorMt (tn : Tensor → Tensor → Except Error Tensor) (a : Tensor) (b : MTensor) : OpOut :=
  ttry b fun y => .ret (MTensor.ofResult (tn a y))

/-- Operator closure shape for the MTensor-Tensor pairing (lines 190-201). -/
def mtTensor (tn : Tensor → Tensor → Except Error Tensor) (a : MTensor) (b : Tensor) : OpOut :=
  ttry a fun x => .ret (MTensor.ofResult (tn x b))

/-- The concrete MTensor-MTensor operators, instantiating the closure with
the external tensor-tensor operator. -/
def mtOpMt (op : BinOp) : MTensor → MTensor → OpOut :=
  mtMt (Tensor.binOp op)

/-- The concrete MTensor-f64 operators. -/
def mtOpF64 (op : BinOp) : MTensor → Int → OpOut :=
  mtScalar (fun t s => Tensor.scalarR op t s)

/-- The concrete f64-MTensor operators. -/
def f64OpMt (op : BinOp) : Int → MTensor → OpOut :=
  scalarMt (fun s t => Tensor.scalarL op s t)

/-- The concrete Tensor-MTensor operators. -/
def tensorOpMt (op : BinOp) : Tensor → MTensor → OpOut :=
  tensorMt (Tensor.binOp op)

/-- The concrete MTensor-Tensor operators. -/
def mtOpTensor (op : BinOp) : MTensor → Tensor → OpOut :=
  mtTensor (Tensor.binOp op)

/-- Outcome of MTensor.unwrap: a normal tensor return or a panic. -/
inductive UnwrapOut where
  | ret (t : Tensor)
  | panicked (code : Nat)
deriving DecidableEq

/-- Code standing for the panic raised by Result.unwrap on an Err value. -/
def unwrapPanicCode : Nat := 2

/-- MTensor.unwrap (lines 40-43): self.inner.as_ref().unwrap().clone().
Result.unwrap yields a clone of the tensor on Ok and panics on Err. -/
def MTensor.unwrap (m : MTensor) : UnwrapOut :=
  match m.inner with
  | .ok t => .ret t
  | .error _ => .panicked unwrapPanicCode

/-- The ControlFlow value produced by the Try implementation.  The residual
type is Result of Infallible, modelled with Empty for Infallible. -/
inductive ControlFlowTry where
  | cont (t : Tensor)
  | brk (r : Except Error Empty)

/-- Try.from_output (lines 75-77): wraps the output tensor as a success. -/
def MTensor.fromOutput (t : Tensor) : MTensor := MTensor.ofTensor t

/-- Try.branch (lines 79-84): Continue with the tensor on Ok, Break with the
error residual on Err. -/
def MTensor.branch (m : MTensor) : ControlFlowTry :=
  match m.inner with
  | .ok v => .cont v
  | .error e => .brk (.error e)

/-- FromResidual.from_residual (lines 86-92): rewraps the residual error as a
failure-state MTensor.  The Ok arm of the residual is uninhabited. -/
def MTensor.fromResidual (r : Except Error Empty) : MTensor :=
  match r with
  | .error e => MTensor.ofResult (.error e)
  | .ok x => x.elim

/-- Sequencing of operator results: a panic in an earlier subexpression
aborts the whole expression, otherwise the produced MTensor flows on. -/
def OpOut.andThen (o : OpOut) (k : MTensor → OpOut) : OpOut :=
  match o with
  | .ret m => k m
  | .panicked c => .panicked c

/-- Unwrap at the end of an operator chain, as in the tests: a panic earlier
in the chain aborts, otherwise the resulting MTensor is unwrapped. -/
def OpOut.unwrapEnd (o : OpOut) : UnwrapOut :=
  match o with
  | .ret m => m.unwrap
  | .panicked c => .panicked c

/-- The bin_trait shell, value-value overload (lines 96-102): calls the
closure on references to both operands. -/
def implVV (op : α → β → OpOut) (a : α) (b : β) : OpOut := op a b

/-- The bin_trait shell, reference-value overload (lines 103-109). -/
def implRV (op : α → β → OpOut) (a : α) (b : β) : OpOut := op a b

/-- The bin_trait shell, value-reference overload (lines 110-116). -/
def implVR (op : α → β → OpOut) (a : α) (b : β) : OpOut := op a b

/-- The bin_trait shell, reference-reference overload (lines 118-124). -/
def implRR (op : α → β → OpOut) (a : α) (b : β) : OpOut := op a b

/-- Modelled from the spec: the external f64 times Tensor operator of the
underlying library as used by the test expression; in this repository the
tensor constructors and operators return the fallible wrapper, so the product
is a success-state MTensor holding the elementwise scaling. -/
def f64MulTensorExt (s : Int) (t : Tensor) : MTensor :=
  MTensor.ofResult (Tensor.scalarL .mul s t)

/-- The mixed scalar and tensor test expression of tests::test1 (line 222):
3.0 * x * x - 4.0 * x - 5.0, with Rust precedence: both products are formed
first, then the two subtractions left to right. -/
def mixedExpr (x : Tensor) : OpOut :=
  (mtOpTensor .mul (f64MulTensorExt 3 x) x).andThen fun m1 =>
    (mtOpMt .sub m1 (f64MulTensorExt 4 x)).andThen fun m2 =>
      mtOpF64 .sub m2 5

/-- The chained sum of tests::test1 (line 219): a + b + c on success-state
wrappers, associated left to right. -/
def chainAdd (a b c : MTensor) : OpOut :=
  (mtOpMt .add a b).andThen fun m => mtOpMt .add m c

end Candle

open Candle

/-- Claim C1, counterexample: a failure-state MTensor whose error is not the
WithBacktrace variant makes the addition operator panic in the unreachable
arm instead of returning a failure-state result carrying that error, so the
claim as stated fails at this input. -/
theorem claim1_counterexample :
    (MTensor.ofResult (.error (Error.msg 7))).inner = Except.error (Error.msg 7)
    ∧ mtOpMt BinOp.add (MTensor.ofResult (.error (Error.msg 7))) (MTensor.ofTensor ⟨[1]⟩)
        = OpOut.panicked unreachableCode
    ∧ mtOpMt BinOp.add (MTensor.ofResult (.error (Error.msg 7))) (MTensor.ofTensor ⟨[1]⟩)
        ≠ OpOut.ret (MTensor.ofResult (Except.error (Error.msg 7))) := by
  decide

/-- Claim C1, amended: for every binary operator and every operand pairing
with an MTensor, if an MTensor operand is in the failure state and its error
is the WithBacktrace variant, the result is a failure-state MTensor carrying
that error, the failure operand taken is the first one checked left to right,
and the underlying tensor operation is not invoked (the generic-closure
conjuncts hold for every underlying operator tn, ts, st alike). -/
theorem claim1_failurePropagation
    (op : BinOp) (a b : MTensor) (e : Error) (n : Nat) (x : Tensor) (s : Int) (t : Tensor)
    (tn : Tensor → Tensor → Except Error Tensor)
    (ts : Tensor → Int → Except Error Tensor)
    (st : Int → Tensor → Except Error Tensor) :
    (a.inner = .error (Error.withBacktrace e n) →
      mtOpMt op a b = .ret (MTensor.ofResult (.error (Error.withBacktrace e n)))
      ∧ mtOpF64 op a s = .ret (MTensor.ofResult (.error (Error.withBacktrace e n)))
      ∧ mtOpTensor op a t = .ret (MTensor.ofResult (.error (Error.withBacktrace e n)))
      ∧ mtMt tn a b = .ret (MTensor.ofResult (.error (Error.withBacktrace e n)))
      ∧ mtScalar ts a s = .ret (MTensor.ofResult (.error (Error.withBacktrace e n)))
      ∧ mtTensor tn a t = .ret (MTensor.ofResult (.error (Error.withBacktrace e n))))
    ∧ (a.inner = .ok x → b.inner = .error (Error.withBacktrace e n) →
      mtOpMt op a b = .ret (MTensor.ofResult (.error (Error.withBacktrace e n)))
      ∧ f64OpMt op s b = .ret (MTensor.ofResult (.error (Error.withBacktrace e n)))
      ∧ tensorOpMt op t b = .ret (MTensor.ofResult (.error (Error.withBacktrace e n)))
      ∧ mtMt tn a b = .ret (MTensor.ofResult (.error (Error.withBacktrace e n)))
      ∧ scalarMt st s b = .ret (MTensor.ofResult (.error (Error.withBacktrace e n)))
      ∧ tensorMt tn t b = .ret (MTensor.ofResult (.error (Error.withBacktrace e n)))) := by
  constructor
  · intro ha
    refine ⟨?_, ?_, ?_, ?_, ?_, ?_⟩ <;>
      simp [mtOpMt, mtOpF64, mtOpTensor, mtMt, mtScalar, mtTensor, ttry, ha, Error.bt]
  · intro ha hb
    refine ⟨?_, ?_, ?_, ?_, ?_, ?_⟩ <;>
      simp [mtOpMt, f64OpMt, tensorOpMt, mtMt, scalarMt, tensorMt, ttry, ha, hb, Error.bt]

/-- Claim C1, witness at a concrete input: a failure-state left operand with
a backtraced error propagates through the concrete addition operator. -/
theorem claim1_witness :
    mtOpMt BinOp.add (MTensor.ofResult (.error (Error.withBacktrace (Error.msg 3) 4)))
        (MTensor.ofTensor ⟨[1]⟩)
      = OpOut.ret (MTensor.ofResult (.error (Error.withBacktrace (Error.msg 3) 4))) :=
  ((claim1_failurePropagation BinOp.add
      (MTensor.ofResult (.error (Error.withBacktrace (Error.msg 3) 4)))
      (MTensor.ofTensor ⟨[1]⟩) (Error.msg 3) 4 ⟨[1]⟩ 0 ⟨[1]⟩
      (Tensor.binOp BinOp.add) (fun t s => Tensor.scalarR BinOp.add t s)
      (fun s t => Tensor.scalarL BinOp.add s t)).1 rfl).1

/-- Claim C2, counterexample: a failure-state MTensor whose error is not the
WithBacktrace variant makes the MTensor plus f64 operator panic instead of
returning a failure-state result with the same error, so the claim as stated
fails at this input. -/
theorem claim2_counterexample :
    (MTensor.ofResult (.error (Error.msg 9))).inner = Except.error (Error.msg 9)
    ∧ mtOpF64 BinOp.add (MTensor.ofResult (.error (Error.msg 9))) 2
        = OpOut.panicked unreachableCode
    ∧ mtOpF64 BinOp.add (MTensor.ofResult (.error (Error.msg 9))) 2
        ≠ OpOut.ret (MTensor.ofResult (Except.error (Error.msg 9))) := by
  decide

/-- Claim C2, amended: for every failure-state MTensor f whose error is the
WithBacktrace variant, every scalar s, tensor t and operator, both f op s,
s op f, f op t and t op f are failure-state and carry exactly the same error
as f, the diagnostic trace unchanged. -/
theorem claim2_errorIdentity
    (f : MTensor) (e : Error) (n : Nat) (op : BinOp) (s : Int) (t : Tensor)
    (hf : f.inner = .error (Error.withBacktrace e n)) :
    mtOpF64 op f s = .ret (MTensor.ofResult (.error (Error.withBacktrace e n)))
    ∧ f64OpMt op s f = .ret (MTensor.ofResult (.error (Error.withBacktrace e n)))
    ∧ mtOpTensor op f t = .ret (MTensor.ofResult (.error (Error.withBacktrace e n)))
    ∧ tensorOpMt op t f = .ret (MTensor.ofResult (.error (Error.withBacktrace e n))) := by
  refine ⟨?_, ?_, ?_, ?_⟩ <;>
    simp [mtOpF64, f64OpMt, mtOpTensor, tensorOpMt, mtScalar, scalarMt, mtTensor, tensorMt,
      ttry, hf, Error.bt]

/-- Claim C2, witness at a concrete input: a backtraced failure propagates
with identical error through scalar-times-MTensor. -/
theorem claim2_witness :
    f64OpMt BinOp.mul 3 (MTensor.ofResult (.error (Error.withBacktrace (Error.msg 5) 8)))
      = OpOut.ret (MTensor.ofResult (.error (Error.withBacktrace (Error.msg 5) 8))) :=
  (claim2_errorIdentity
      (MTensor.ofResult (.error (Error.withBacktrace (Error.msg 5) 8)))
      (Error.msg 5) 8 BinOp.mul 3 ⟨[1]⟩ rfl).2.1

/-- Claim C3: for every operator and every pairing with at least one MTensor,
when every MTensor operand is in the success state the result is the wrapping
as MTensor of the equivalent underlying operator applied to the unwrapped
values (tensor-tensor, tensor-scalar or scalar-tensor); the right-hand sides
wrap whatever the underlying operation returns, so the case where it returns
an error is included. -/
theorem claim3_successForwarding
    (op : BinOp) (a b : MTensor) (x y : Tensor) (s : Int)
    (ha : a.inner = .ok x) (hb : b.inner = .ok y) :
    mtOpMt op a b = .ret (MTensor.ofResult (Tensor.binOp op x y))
    ∧ mtOpF64 op a s = .ret (MTensor.ofResult (Tensor.scalarR op x s))
    ∧ f64OpMt op s b = .ret (MTensor.ofResult (Tensor.scalarL op s y))
    ∧ tensorOpMt op x b = .ret (MTensor.ofResult (Tensor.binOp op x y))
    ∧ mtOpTensor op a y = .ret (MTensor.ofResult (Tensor.binOp op x y)) := by
  refine ⟨?_, ?_, ?_, ?_, ?_⟩ <;>
    simp [mtOpMt, mtOpF64, f64OpMt, tensorOpMt, mtOpTensor, mtMt, mtScalar, scalarMt,
      tensorMt, mtTensor, ttry, ha, hb]

/-- Claim C3, witness at a concrete input with mismatched shapes, so that the
underlying operation itself returns an error and the result wraps it. -/
theorem claim3_witness :
    mtOpMt BinOp.add (MTensor.ofTensor ⟨[1, 2]⟩) (MTensor.ofTensor ⟨[5]⟩)
      = OpOut.ret (MTensor.ofResult (Tensor.binOp BinOp.add ⟨[1, 2]⟩ ⟨[5]⟩)) :=
  (claim3_successForwarding BinOp.add (MTensor.ofTensor ⟨[1, 2]⟩) (MTensor.ofTensor ⟨[5]⟩)
      ⟨[1, 2]⟩ ⟨[5]⟩ 0 rfl rfl).1

/-- Claim C4: the short-circuit branch yields the inner tensor on success;
on failure it yields the break residual carrying the original error, and
from_residual turns that residual into a failure-state MTensor carrying the
very same error, its trace untouched. -/
theorem claim4_trySemantics (m : MTensor) (t : Tensor) (e : Error) :
    (m.inner = .ok t → MTensor.branch m = ControlFlowTry.cont t)
    ∧ (m.inner = .error e →
        MTensor.branch m = ControlFlowTry.brk (.error e)
        ∧ MTensor.fromResidual (.error e) = MTensor.ofResult (.error e)) := by
  constructor
  · intro h
    simp [MTensor.branch, h]
  · intro h
    exact ⟨by simp [MTensor.branch, h], by simp [MTensor.fromResidual]⟩

/-- Claim C4, witness at concrete inputs for both the success branch and the
failure branch. -/
theorem claim4_witness :
    MTensor.branch (MTensor.ofTensor ⟨[2]⟩) = ControlFlowTry.cont ⟨[2]⟩
    ∧ MTensor.branch (MTensor.ofResult (.error (Error.withBacktrace (Error.msg 1) 2)))
        = ControlFlowTry.brk (.error (Error.withBacktrace (Error.msg 1) 2))
    ∧ MTensor.fromResidual (.error (Error.withBacktrace (Error.msg 1) 2))
        = MTensor.ofResult (.error (Error.withBacktrace (Error.msg 1) 2)) :=
  ⟨(claim4_trySemantics (MTensor.ofTensor ⟨[2]⟩) ⟨[2]⟩ (Error.msg 0)).1 rfl,
    ((claim4_trySemantics (MTensor.ofResult (.error (Error.withBacktrace (Error.msg 1) 2)))
        ⟨[]⟩ (Error.withBacktrace (Error.msg 1) 2)).2 rfl).1,
    ((claim4_trySemantics (MTensor.ofResult (.error (Error.withBacktrace (Error.msg 1) 2)))
        ⟨[]⟩ (Error.withBacktrace (Error.msg 1) 2)).2 rfl).2⟩

/-- Claim C5: unwrap on an MTensor built from a tensor t returns a tensor
equal by value to t, and unwrap on any failure-state MTensor panics, with no
recoverable error value in the return type. -/
theorem claim5_unwrap (t : Tensor) (e : Error) :
    (MTensor.ofTensor t).unwrap = UnwrapOut.ret t
    ∧ (MTensor.ofResult (.error e)).unwrap = UnwrapOut.panicked unwrapPanicCode := by
  exact ⟨rfl, rfl⟩

/-- Claim C6, counterexample: the mixed expression 3 * x * x - 4 * x - 5 at
x = [3, 4] evaluates elementwise to [10, 27] (3*9-4*3-5 = 10), not to the
[16, 27] stated by the claim. -/
theorem claim6_counterexample :
    mixedExpr ⟨[3, 4]⟩ = OpOut.ret (MTensor.ofTensor ⟨[10, 27]⟩)
    ∧ mixedExpr ⟨[3, 4]⟩ ≠ OpOut.ret (MTensor.ofTensor ⟨[16, 27]⟩) := by
  decide

/-- Claim C6, amended: chained operator expressions on the wrapper equal the
elementwise operations on the underlying values: (a + b + c) is the
success-state wrap of elementwise a+b+c and unwraps to it, and the mixed
expression 3 * x * x - 4 * x - 5 at x = [3, 4] unwraps to [10, 27]
(elementwise 3*9-4*3-5 = 10 and 3*16-4*4-5 = 27). -/
theorem claim6_chainEquivalence
    (a b c : Tensor)
    (hab : a.data.length = b.data.length)
    (hac : a.data.length = c.data.length) :
    chainAdd (MTensor.ofTensor a) (MTensor.ofTensor b) (MTensor.ofTensor c)
      = OpOut.ret (MTensor.ofTensor
          ⟨List.zipWith (fun x y => x + y) (List.zipWith (fun x y => x + y) a.data b.data) c.data⟩)
    ∧ (chainAdd (MTensor.ofTensor a) (MTensor.ofTensor b) (MTensor.ofTensor c)).unwrapEnd
      = UnwrapOut.ret
          ⟨List.zipWith (fun x y => x + y) (List.zipWith (fun x y => x + y) a.data b.data) c.data⟩
    ∧ (mixedExpr ⟨[3, 4]⟩).unwrapEnd = UnwrapOut.ret ⟨[10, 27]⟩ := by
  have hbc : b.data.length = c.data.length := by omega
  have happ : BinOp.add.apply = fun x y : Int => x + y := rfl
  have h1 : chainAdd (MTensor.ofTensor a) (MTensor.ofTensor b) (MTensor.ofTensor c)
      = OpOut.ret (MTensor.ofTensor
          ⟨List.zipWith (fun x y => x + y) (List.zipWith (fun x y => x + y) a.data b.data) c.data⟩) := by
    simp [chainAdd, mtOpMt, mtMt, ttry, MTensor.ofTensor, MTensor.ofResult, OpOut.andThen,
      Tensor.binOp, hab, hbc, List.length_zipWith, happ]
  refine ⟨h1, ?_, by decide⟩
  rw [h1]
  rfl

/-- Claim C6, witness at concrete compatible tensors: [1,2] + [2,3] + [3,4]
wraps and unwraps to the elementwise sum. -/
theorem claim6_witness :
    chainAdd (MTensor.ofTensor ⟨[1, 2]⟩) (MTensor.ofTensor ⟨[2, 3]⟩) (MTensor.ofTensor ⟨[3, 4]⟩)
      = OpOut.ret (MTensor.ofTensor
          ⟨List.zipWith (fun x y => x + y) (List.zipWith (fun x y => x + y) [1, 2] [2, 3]) [3, 4]⟩) :=
  (claim6_chainEquivalence ⟨[1, 2]⟩ ⟨[2, 3]⟩ ⟨[3, 4]⟩ rfl rfl).1

/-- Claim C7: building the wrapper from a plain tensor always yields the
success state holding that tensor unmodified, and building it from a
result-like value passes the state and contained value through unchanged. -/
theorem claim7_construction (t : Tensor) (r : Except Error Tensor) :
    (MTensor.ofTensor t).inner = Except.ok t ∧ (MTensor.ofResult r).inner = r :=
  ⟨rfl, rfl⟩

/-- Claim C9: applying a binary operator to a failure-state MTensor whose
error is not the WithBacktrace variant does not produce a failure-state
result: the propagation arm of the operator glue panics in its unreachable
branch, for every operator and pairing, so propagation presupposes that
contained errors are backtraced. -/
theorem claim9_nonBacktracePanics
    (op : BinOp) (a b : MTensor) (c : Nat) (s : Int) (t : Tensor) (x : Tensor) :
    (a.inner = .error (Error.msg c) →
      mtOpMt op a b = .panicked unreachableCode
      ∧ mtOpF64 op a s = .panicked unreachableCode
      ∧ mtOpTensor op a t = .panicked unreachableCode)
    ∧ (a.inner = .ok x → b.inner = .error (Error.msg c) →
      mtOpMt op a b = .panicked unreachableCode
      ∧ f64OpMt op s b = .panicked unreachableCode
      ∧ tensorOpMt op t b = .panicked unreachableCode) := by
  constructor
  · intro ha
    refine ⟨?_, ?_, ?_⟩ <;>
      simp [mtOpMt, mtOpF64, mtOpTensor, mtMt, mtScalar, mtTensor, ttry, ha]
  · intro ha hb
    refine ⟨?_, ?_, ?_⟩ <;>
      simp [mtOpMt, f64OpMt, tensorOpMt, mtMt, scalarMt, tensorMt, ttry, ha, hb]

/-- Claim C9, witness at a concrete input: dividing by a failure-state
MTensor holding a non-backtraced error panics. -/
theorem claim9_witness :
    f64OpMt BinOp.div 1 (MTensor.ofResult (.error (Error.msg 4)))
      = OpOut.panicked unreachableCode :=
  ((claim9_nonBacktracePanics BinOp.div (MTensor.ofTensor ⟨[1]⟩)
      (MTensor.ofResult (.error (Error.msg 4))) 4 1 ⟨[1]⟩ ⟨[1]⟩).2 rfl rfl).2.1

/-- Claim C10: for every operator and every pairing, the four reference and
value overload combinations generated by the bin_trait shell produce the same
result on the same operand values. -/
theorem claim10_overloadAgreement (op : BinOp) (a b : MTensor) (t : Tensor) (s : Int) :
    (implVV (mtOpMt op) a b = implRV (mtOpMt op) a b
      ∧ implRV (mtOpMt op) a b = implVR (mtOpMt op) a b
      ∧ implVR (mtOpMt op) a b = implRR (mtOpMt op) a b)
    ∧ (implVV (mtOpF64 op) a s = implRV (mtOpF64 op) a s
      ∧ implRV (mtOpF64 op) a s = implVR (mtOpF64 op) a s
      ∧ implVR (mtOpF64 op) a s = implRR (mtOpF64 op) a s)
    ∧ (implVV (f64OpMt op) s b = implRV (f64OpMt op) s b
      ∧ implRV (f64OpMt op) s b = implVR (f64OpMt op) s b
      ∧ implVR (f64OpMt op) s b = implRR (f64OpMt op) s b)
    ∧ (implVV (tensorOpMt op) t b = implRV (tensorOpMt op) t b
      ∧ implRV (tensorOpMt op) t b = implVR (tensorOpMt op) t b
      ∧ implVR (tensorOpMt op) t b = implRR (tensorOpMt op) t b)
    ∧ (implVV (mtOpTensor op) a t = implRV (mtOpTensor op) a t
      ∧ implRV (mtOpTensor op) a t = implVR (mtOpTensor op) a t
      ∧ implVR (mtOpTensor op) a t = implRR (mtOpTensor op) a t) :=
  ⟨⟨rfl, rfl, rfl⟩, ⟨rfl, rfl, rfl⟩, ⟨rfl, rfl, rfl⟩, ⟨rfl, rfl, rfl⟩, ⟨rfl, rfl, rfl⟩⟩
